import Mathlib

/-!
Shallow embedding of the credential-validation and quota-enforcement
pipeline of the booster-app backend.

The embedded code comes from:
* `src/services/validateApiKeyService.js` (`validateApiKey`,
  `logValidationAttempt`, `updateApiKeyLastUsed`);
* `src/controllers/webhookController.js` (the
  `validateApiKeyController.validateApiKey` HTTP handler);
* `src/unnamed/part_015` (`generateNewApiKey`, `revokeApiKey`) and
  `src/unnamed/part_010` (`generateApiKey`, `generateApiSecret`,
  `encryptApiSecret`);
* `src/utils/successResponse.js` / `errorResponse.js`.

Database rows are modelled as Lean structures, the database as lists of
rows, and each SQL query of the source as the corresponding list
operation.  JavaScript `Date` values are modelled by `JsDate`
(year / month / day-with-time, ordered lexicographically); the SHA-256
digest `encryptApiSecret` is kept abstract as a function parameter
`hash : String → String`, since no claim depends on the concrete digest.
Storage faults and audit-log write failures are injected explicitly as
parameters, mirroring the `throw` / `catch` structure of the source.
-/

namespace Booster

/-- A JavaScript `Date`, reduced to the fields the embedded code reads:
calendar year, calendar month, and a day-of-month-with-time component
`tick` (the source only ever compares dates, so any strictly finer
resolution folds into `tick`).  `new Date(y, m, 1)` is `⟨y, m, 1⟩`
with `tick` measuring from 1 at the first instant of the month. -/
structure JsDate where
  year : Nat
  month : Nat
  tick : Nat
deriving Repr, DecidableEq

/-- JavaScript `<=` on `Date` values: lexicographic on
(year, month, tick). -/
def JsDate.leb (a b : JsDate) : Bool :=
  if a.year < b.year then true
  else if b.year < a.year then false
  else if a.month < b.month then true
  else if b.month < a.month then false
  else a.tick ≤ b.tick

/-- JavaScript `<` on `Date` values. -/
def JsDate.ltb (a b : JsDate) : Bool :=
  if a.year < b.year then true
  else if b.year < a.year then false
  else if a.month < b.month then true
  else if b.month < a.month then false
  else a.tick < b.tick

/-- `new Date(now.getFullYear(), now.getMonth(), 1)`: the first instant
of the current calendar month (validateApiKeyService.js line 162). -/
def firstDayOfMonth (now : JsDate) : JsDate :=
  ⟨now.year, now.month, 1⟩

/-- A row of the `[ApiKeys]` table, with the columns read by the
embedded code. -/
structure ApiKeyRecord where
  id : Nat
  user_id : Nat
  api_key : String
  api_secret_hash : String
  is_active : Bool
  created_at : Option JsDate
  expires_at : Option JsDate
  last_used : Option JsDate
deriving Repr, DecidableEq

/-- A row of the `[Users]` table (columns read by the validation
pipeline: `id`, `is_active`, `is_blocked`). -/
structure UserRecord where
  id : Nat
  is_active : Bool
  is_blocked : Bool
deriving Repr, DecidableEq

/-- A row of the `[UserSubscriptions]` table.  `end_date` is carried in
the model even though the validation pipeline's query never reads it:
whether the gate consults it is exactly what claim C4 is about. -/
structure SubscriptionRecord where
  id : Nat
  user_id : Nat
  tier_id : Nat
  status : String
  end_date : Option JsDate
deriving Repr, DecidableEq

/-- A row of the `[SubscriptionTiers]` table (the columns consumed by
the validation pipeline's JOIN). -/
structure TierRecord where
  id : Nat
  api_call_limit : Nat
deriving Repr, DecidableEq

/-- `JSON.stringify` of a (flat, string-valued) request body is modelled
as the association list of its fields rather than a rendered string. -/
abbrev BodyJson := List (String × String)

/-- A row of the `[ApiLogs]` table, as inserted by
`logValidationAttempt` (validateApiKeyService.js lines 247-274). -/
structure ApiLogRecord where
  id : Nat
  api_key_id : Option Nat
  user_id : Option Nat
  endpoint : String
  method : String
  status_code : Nat
  response_time_ms : Nat
  ip_address : String
  request_body : Option BodyJson
  error_message : Option String
  created_at : JsDate
deriving Repr, DecidableEq

/-- The database state visible to the validation pipeline. -/
structure Db where
  apiKeys : List ApiKeyRecord
  users : List UserRecord
  subscriptions : List SubscriptionRecord
  tiers : List TierRecord
  apiLogs : List ApiLogRecord
deriving Repr, DecidableEq

/-- The query of step 9 of `validateApiKey`
(validateApiKeyService.js lines 140-146):
`SELECT us.id, us.status, st.api_call_limit FROM [UserSubscriptions] us
JOIN [SubscriptionTiers] st ON us.tier_id = st.id
WHERE us.user_id = @userId AND us.status = 'active'`.
Each surviving row is the subscription paired with its tier's
`api_call_limit`.  Note the filter tests only the persisted `status`
column; `end_date` is not part of the query. -/
def subscriptionQuery (db : Db) (userId : Nat) : List (SubscriptionRecord × Nat) :=
  (db.subscriptions.filter
      (fun s => s.user_id == userId && s.status == "active")).filterMap
    (fun s => (db.tiers.find? (fun t => t.id == s.tier_id)).map
      (fun t => (s, t.api_call_limit)))

/-- The usage query of step 10 (validateApiKeyService.js lines 164-170):
`SELECT COUNT(*) FROM [ApiLogs]
WHERE api_key_id = @apiKeyId AND created_at >= @firstDay`. -/
def currentUsage (db : Db) (now : JsDate) (apiKeyId : Nat) : Nat :=
  (db.apiLogs.filter
    (fun l => l.api_key_id == some apiKeyId
      && JsDate.leb (firstDayOfMonth now) l.created_at)).length

/-- The discriminated result of the `validateApiKey` service:
the `success: false` object with `error` / `statusCode` / `errorCode`,
or the `success: true` object with the key record's fields. -/
inductive VResult where
  | failure (error : String) (statusCode : Nat) (errorCode : String)
  | success (api_key_id : Nat) (user_id : Nat)
      (created_at : Option JsDate) (expires_at : Option JsDate)
      (is_active : Bool)
deriving Repr, DecidableEq

/-- The `errorCode` field of a failure result. -/
def VResult.errorCode : VResult → Option String
  | .failure _ _ c => some c
  | .success _ _ _ _ _ => none

/-- The `statusCode` field of a failure result. -/
def VResult.statusCode : VResult → Option Nat
  | .failure _ c _ => some c
  | .success _ _ _ _ _ => none

/-- `validateApiKey(apiKey, apiSecret)` of
`src/services/validateApiKeyService.js` (lines 48-200), on the fault-free
path (storage faults of this function are injected at the controller
level, matching the `throw err` of its catch block).

`hash` abstracts `encryptApiSecret` (SHA-256, `src/unnamed/part_010`);
`now` is the wall clock read by `new Date()`. -/
def validateApiKey (hash : String → String) (now : JsDate) (db : Db)
    (apiKey apiSecret : String) : VResult :=
  -- step 1-2: lookup by api_key; empty result set rejects
  match (db.apiKeys.filter (fun k => k.api_key == apiKey)).head? with
  | none => .failure "유효하지 않은 API Key입니다" 401 "INVALID_API_KEY"
  | some keyRecord =>
    -- step 3: recompute the digest and compare
    if hash apiSecret ≠ keyRecord.api_secret_hash then
      .failure "유효하지 않은 API Secret입니다" 401 "INVALID_API_SECRET"
    -- step 4: credential soft-delete flag
    else if keyRecord.is_active = false then
      .failure "비활성화된 API Key입니다" 403 "API_KEY_INACTIVE"
    -- step 5: expiry (null expires_at means no expiry)
    else if (match keyRecord.expires_at with
             | some d => JsDate.ltb d now
             | none => false) then
      .failure "만료된 API Key입니다" 403 "API_KEY_EXPIRED"
    else
      -- step 6: owner lookup
      match (db.users.filter (fun u => u.id == keyRecord.user_id)).head? with
      | none => .failure "사용자를 찾을 수 없습니다" 403 "USER_NOT_FOUND"
      | some user =>
        -- step 7: owner active flag
        if user.is_active = false then
          .failure "비활성화된 사용자 계정입니다" 403 "USER_INACTIVE"
        -- step 8: owner blocked flag
        else if user.is_blocked then
          .failure "차단된 사용자입니다" 403 "USER_BLOCKED"
        else
          -- step 9: active-status subscription joined with its tier
          match (subscriptionQuery db keyRecord.user_id).head? with
          | none => .failure "활성화된 구독이 없습니다" 403 "SUBSCRIPTION_INACTIVE"
          | some (_, monthlyLimit) =>
            -- step 10: monthly usage ceiling
            if monthlyLimit ≤ currentUsage db now keyRecord.id then
              .failure "API 호출 제한을 초과했습니다" 429 "API_LIMIT_EXCEEDED"
            else
              -- step 11 (last_used update) has no effect on the result;
              -- step 12: success object
              .success keyRecord.id keyRecord.user_id keyRecord.created_at
                keyRecord.expires_at keyRecord.is_active

/-- The request body of `POST /api/validate-key`
(`{ api_key, api_secret }`, either field possibly absent). -/
structure ReqBody where
  api_key : Option String
  api_secret : Option String
deriving Repr, DecidableEq

/-- JavaScript falsiness of `req.body.x` for a string-valued field:
`undefined` and the empty string are falsy. -/
def jsFalsyStr : Option String → Bool
  | none => true
  | some s => s == ""

/-- `JSON.stringify(req.body)` for the validate endpoint's body, as an
association list (absent fields are omitted by `JSON.stringify`). -/
def bodyJson (b : ReqBody) : BodyJson :=
  (match b.api_key with | some k => [("api_key", k)] | none => []) ++
  (match b.api_secret with | some s => [("api_secret", s)] | none => [])

/-- JavaScript `String.prototype.startsWith`, modelled on the character
list (the library `String.startsWith` does not reduce in the kernel). -/
def strHasPrefix (s pre : String) : Bool :=
  pre.data.isPrefixOf s.data

/-- JavaScript `String.prototype.substring(0, n)`, modelled on the
character list. -/
def strTake (s : String) (n : Nat) : String :=
  ⟨s.data.take n⟩

/-- `JSON.stringify({ api_key: api_key.substring(0, 10) + '...' })`:
the truncated body logged on the success and business-rejection paths
(webhookController.js lines 120 and 145, comment `보안: 일부만 표시`). -/
def truncatedKeyJson (apiKey : String) : BodyJson :=
  [("api_key", strTake apiKey 10 ++ "...")]

/-- A JSON value appearing in a response body. -/
inductive JsonVal where
  | vNull
  | vStr (s : String)
  | vNat (n : Nat)
  | vBool (b : Bool)
  | vDate (d : JsDate)
deriving Repr, DecidableEq

/-- A nullable date rendered into a response. -/
def JsonVal.ofOptDate : Option JsDate → JsonVal
  | some d => .vDate d
  | none => .vNull

/-- The HTTP response produced by `errorResponse` / `successResponse`
(`src/utils/errorResponse.js`, `successResponse.js`): either
`{ success: false, message, errorCode }` with a status code, or
`{ success: true, message, data }` with a status code. -/
inductive HttpResponse where
  | errorRes (message : String) (statusCode : Nat) (errorCode : String)
  | okRes (data : List (String × JsonVal)) (message : String) (statusCode : Nat)
deriving Repr, DecidableEq

/-- The HTTP status code of a response. -/
def HttpResponse.status : HttpResponse → Nat
  | .errorRes _ c _ => c
  | .okRes _ _ c => c

/-- Injected infrastructure faults, mirroring the `throw` sites of the
source: `serviceFault = some m` makes the `validateApiKey` service call
throw `Error(m)` (its catch block rethrows, line 198);
`logFault = some m` makes every `[ApiLogs]` INSERT of this request fail,
so `logValidationAttempt` throws `Error(m)` (line 272 rethrows). -/
structure Faults where
  serviceFault : Option String
  logFault : Option String
deriving Repr, DecidableEq

/-- The fault-free environment. -/
def noFaults : Faults := ⟨none, none⟩

/-- The row inserted by `logValidationAttempt`
(validateApiKeyService.js lines 251-269): `created_at` is `GETDATE()`,
`id` a fresh UUID (modelled as a caller-supplied fresh `Nat`). -/
def mkLogRecord (logId : Nat) (apiKeyId userId : Option Nat)
    (statusCode rt : Nat) (ip : String) (reqBody : Option BodyJson)
    (errMsg : Option String) (now : JsDate) : ApiLogRecord :=
  ⟨logId, apiKeyId, userId, "/api/validate-key", "POST", statusCode, rt,
   ip, reqBody, errMsg, now⟩

/-- The `data` object of the controller's success response
(webhookController.js lines 150-161). -/
def admittedData (kid uid : Nat) (cat exp : Option JsDate) (act : Bool) :
    List (String × JsonVal) :=
  [("user_id", .vNat uid),
   ("api_key_id", .vNat kid),
   ("creation_date", .ofOptDate cat),
   ("expiration_date", .ofOptDate exp),
   ("is_active", .vBool act)]

/-- The controller's `catch` block (webhookController.js lines 163-195):
it tries to log with `api_key_id: null` and
`request_body: JSON.stringify(req.body)` (the FULL raw body), swallowing
a failure of that write via `.catch`, then responds
500 `INTERNAL_ERROR`. `errMsg` is `err.message` of the caught error. -/
def controllerCatch (f : Faults) (now : JsDate) (req : ReqBody)
    (ip : String) (rt logId : Nat) (errMsg : String) :
    HttpResponse × List ApiLogRecord :=
  let written :=
    match f.logFault with
    | some _ => []
    | none =>
        [mkLogRecord logId none none 500 rt ip (some (bodyJson req))
          (some errMsg) now]
  (.errorRes "서버 오류가 발생했습니다" 500 "INTERNAL_ERROR", written)

/-- The HTTP handler of `POST /api/validate-key`
(`validateApiKeyController.validateApiKey`, webhookController.js
lines 74-196).  Returns the response sent and the list of `[ApiLogs]`
rows actually inserted by this request.  `rt` is the measured
`response_time_ms`, `logId` the fresh log row id. -/
def controllerValidate (hash : String → String) (now : JsDate) (db : Db)
    (f : Faults) (req : ReqBody) (ip : String) (rt logId : Nat) :
    HttpResponse × List ApiLogRecord :=
  -- step 2: required-field check (no log write on this early return)
  if jsFalsyStr req.api_key || jsFalsyStr req.api_secret then
    (.errorRes "API Key 또는 Secret이 누락되었습니다" 400 "MISSING_CREDENTIALS", [])
  else
    let apiKey := req.api_key.getD ""
    let apiSecret := req.api_secret.getD ""
    -- step 3: format check (no log write on this early return)
    if (strHasPrefix apiKey "sk_") = false then
      (.errorRes "유효하지 않은 API Key 형식입니다" 400 "INVALID_API_KEY_FORMAT", [])
    else
      match f.serviceFault with
      | some m => controllerCatch f now req ip rt logId m
      | none =>
        match validateApiKey hash now db apiKey apiSecret with
        | .failure err sc ec =>
          -- step 5: failure log is awaited inside the try block; its
          -- failure propagates to the catch block
          match f.logFault with
          | some m => controllerCatch f now req ip rt logId m
          | none =>
            (.errorRes err sc ec,
             [mkLogRecord logId none none sc rt ip
               (some (truncatedKeyJson apiKey)) (some err) now])
        | .success kid uid cat exp act =>
          -- step 7: success log is awaited inside the try block as well
          match f.logFault with
          | some m => controllerCatch f now req ip rt logId m
          | none =>
            (.okRes (admittedData kid uid cat exp act) "API Key 검증 성공" 200,
             [mkLogRecord logId (some kid) (some uid) 200 rt ip
               (some (truncatedKeyJson apiKey)) none now])

/-- Does some field value of a logged request body equal `s`?  Used to
state whether a log row contains the plaintext secret. -/
def logRowHasValue (l : ApiLogRecord) (s : String) : Bool :=
  match l.request_body with
  | some b => b.any (fun kv => kv.2 == s)
  | none => false

/-!  Key-management operations reachable through the public routes
(`src/unnamed/part_017`: `POST /api-keys`, `DELETE /api-keys/:keyId`;
plus the pipeline's internal `last_used` touch).  These are the only
statements in the repository that write to `[ApiKeys]`. -/

/-- One mutation of the `[ApiKeys]` table. -/
inductive KeyOp where
  /-- `generateNewApiKey` (part_015 lines 185-243): INSERT of a fresh
  row with `is_active = 1`, `created_at` defaulted, no expiry. -/
  | createKey (keyId userId : Nat) (apiKey secretHash : String) (t : JsDate)
  /-- `revokeApiKey` (part_015 lines 328-350): ownership check, then
  `UPDATE [ApiKeys] SET is_active = 0 WHERE id = @keyId`. -/
  | revokeKey (userId keyId : Nat)
  /-- `updateApiKeyLastUsed` (validateApiKeyService.js lines 212-222):
  `UPDATE [ApiKeys] SET last_used = GETDATE() WHERE id = @id`. -/
  | touchLastUsed (keyId : Nat) (t : JsDate)
deriving Repr, DecidableEq

/-- Applying one `KeyOp` to the `[ApiKeys]` table. -/
def applyKeyOp (keys : List ApiKeyRecord) (op : KeyOp) : List ApiKeyRecord :=
  match op with
  | .createKey kid uid ak sh t =>
      keys ++ [⟨kid, uid, ak, sh, true, some t, none, none⟩]
  | .revokeKey uid kid =>
      if (keys.filter (fun k => k.id == kid && k.user_id == uid)).isEmpty then
        keys  -- the service throws 'API Key를 찾을 수 없습니다'; no UPDATE runs
      else
        keys.map (fun k => if k.id == kid then { k with is_active := false } else k)
  | .touchLastUsed kid t =>
      keys.map (fun k => if k.id == kid then { k with last_used := some t } else k)

/-- A sequence of `[ApiKeys]` mutations. -/
def applyKeyOps (keys : List ApiKeyRecord) (ops : List KeyOp) : List ApiKeyRecord :=
  ops.foldl applyKeyOp keys

/-- Whether an operation inserts a row with id `kid` (only `createKey`
inserts; ids are fresh UUIDs in the source, so an id already present is
never re-created). -/
def KeyOp.createsId : KeyOp → Nat → Bool
  | .createKey kid' _ _ _ _, kid => kid' == kid
  | .revokeKey _ _, _ => false
  | .touchLastUsed _ _, _ => false

/-!  A run of the validate endpoint: a sequence of requests, each
appending the audit-log rows it writes to `[ApiLogs]` (the only table
the endpoint writes that the pipeline later reads). -/

/-- One inbound request to `POST /api/validate-key`: its body, source
ip, measured response time, fresh log row id, arrival time (the wall
clock the handler reads), and the infrastructure faults in effect while
it is handled. -/
structure Request where
  body : ReqBody
  ip : String
  rt : Nat
  logId : Nat
  time : JsDate
  faults : Faults
deriving Repr, DecidableEq

/-- Handle one request: the response is sent and the written log rows
are appended to `[ApiLogs]`. -/
def stepRequest (hash : String → String) (db : Db) (r : Request) :
    Db × HttpResponse :=
  let out := controllerValidate hash r.time db r.faults r.body r.ip r.rt r.logId
  ({ db with apiLogs := db.apiLogs ++ out.2 }, out.1)

/-- Handle a sequence of requests, collecting the responses. -/
def runRequests (hash : String → String) (db : Db) :
    List Request → Db × List HttpResponse
  | [] => (db, [])
  | r :: rest =>
      let s := stepRequest hash db r
      let t := runRequests hash s.1 rest
      (t.1, s.2 :: t.2)

/-- The credential id carried by an admitted (200, `success: true`)
response, read back out of its `data.api_key_id` field. -/
def HttpResponse.admittedKeyId : HttpResponse → Option Nat
  | .okRes data _ _ =>
      match data.lookup "api_key_id" with
      | some (.vNat k) => some k
      | _ => none
  | .errorRes _ _ _ => none

/-- Among a run's (request, response) pairs, the number of admitted
responses for credential `kid` whose request arrived within the
calendar month of `now`. -/
def admittedCount (kid : Nat) (now : JsDate) (rs : List Request)
    (resps : List HttpResponse) : Nat :=
  ((rs.zip resps).filter (fun p =>
      p.2.admittedKeyId == some kid
        && JsDate.leb (firstDayOfMonth now) p.1.time)).length

/-!  Concrete fixtures used by witnesses and counterexamples. -/

/-- A stand-in for the SHA-256 digest `encryptApiSecret`: any concrete
function distinct from the identity works for the closed statements. -/
def hash0 : String → String := fun s => String.append s "#digest"

/-- The wall clock of the concrete scenarios. -/
def dNow : JsDate := ⟨2026, 9, 15⟩

/-- An authenticating, active, non-expiring credential. -/
def key1 : ApiKeyRecord :=
  ⟨1, 10, "sk_alpha", hash0 "sec1", true, some ⟨2026, 0, 3⟩, none, none⟩

/-- `key1` after revocation (`is_active = 0`). -/
def key1Revoked : ApiKeyRecord :=
  ⟨1, 10, "sk_alpha", hash0 "sec1", false, some ⟨2026, 0, 3⟩, none, none⟩

/-- An active, unblocked owner. -/
def userOk : UserRecord := ⟨10, true, false⟩

/-- An active owner with `is_blocked = 1`. -/
def userBlocked : UserRecord := ⟨10, true, true⟩

/-- A blocked owner whose account is additionally `is_active = 0`. -/
def userBlockedInactive : UserRecord := ⟨10, false, true⟩

/-- A subscription in persisted status `active`, no end date. -/
def sub1 : SubscriptionRecord := ⟨100, 10, 5, "active", none⟩

/-- A subscription whose persisted status is still `active` although
its `end_date` (June 2026) lies before `dNow` (October 2026). -/
def subStale : SubscriptionRecord := ⟨100, 10, 5, "active", some ⟨2026, 5, 30⟩⟩

/-- The tier joined by the fixtures: monthly call limit 3. -/
def tier1 : TierRecord := ⟨5, 3⟩

/-- An admitted-call audit row for `key1` inside the month of `dNow`. -/
def mkUsageLog (i : Nat) : ApiLogRecord :=
  ⟨i, some 1, some 10, "/api/validate-key", "POST", 200, 5, "9.9.9.9",
   none, none, ⟨2026, 9, 2⟩⟩

/-- Fixture: blocked (and also deactivated) owner, no subscription. -/
def dbBlockedInactive : Db := ⟨[key1], [userBlockedInactive], [], [], []⟩

/-- Fixture: blocked but still `is_active` owner, no subscription. -/
def dbBlocked : Db := ⟨[key1], [userBlocked], [], [], []⟩

/-- Fixture: healthy owner and subscription, zero usage. -/
def dbHealthy : Db := ⟨[key1], [userOk], [sub1], [tier1], []⟩

/-- Fixture: healthy owner, stale-active expired subscription. -/
def dbStaleSub : Db := ⟨[key1], [userOk], [subStale], [tier1], []⟩

/-- Fixture: healthy, with 2 of the 3 monthly calls already used. -/
def dbUsage2 : Db := ⟨[key1], [userOk], [sub1], [tier1], [mkUsageLog 201, mkUsageLog 202]⟩

/-- Fixture: healthy, with the monthly limit of 3 fully used. -/
def dbUsage3 : Db :=
  ⟨[key1], [userOk], [sub1], [tier1], [mkUsageLog 201, mkUsageLog 202, mkUsageLog 203]⟩

/-- Fixture: the revoked credential, healthy owner and subscription. -/
def dbRevoked : Db := ⟨[key1Revoked], [userOk], [sub1], [tier1], []⟩

/-- Fixture: an empty database (any key lookup misses). -/
def dbEmpty : Db := ⟨[], [], [], [], []⟩

/-!  ## Claims -/

/-- C1 (counterexample).  The claim quantifies over every request whose
credential authenticates and whose owning account has `blocked=true`,
and asserts the result is always `USER_BLOCKED`.  In the code the
account gate tests `is_active` before `is_blocked`
(validateApiKeyService.js lines 120 and 130), so an owner that is both
deactivated and blocked is rejected as `USER_INACTIVE`, not
`USER_BLOCKED`: here the credential authenticates (digest matches,
active, unexpired), the owner has `is_blocked = true`, and yet the
error code is `USER_INACTIVE`. -/
theorem C1_counterexample :
    hash0 "sec1" = key1.api_secret_hash ∧
    key1.is_active = true ∧ key1.expires_at = none ∧
    userBlockedInactive.is_blocked = true ∧
    (validateApiKey hash0 dNow dbBlockedInactive "sk_alpha" "sec1").errorCode
      = some "USER_INACTIVE" ∧
    (validateApiKey hash0 dNow dbBlockedInactive "sk_alpha" "sec1").errorCode
      ≠ some "USER_BLOCKED" := by
  refine ⟨rfl, rfl, rfl, rfl, rfl, ?_⟩
  decide

/-- C1 (amended).  For every validation request whose credential
authenticates (key found, digest matches, active, unexpired) and whose
owning account is found, has `is_active = true`, and has
`is_blocked = true`, `validate` returns the `USER_BLOCKED` (403)
rejection — regardless of the owner's subscription state, since the
blocked check precedes the subscription gate and short-circuits. -/
theorem C1_blocked_account_rejected
    (hash : String → String) (now : JsDate) (db : Db)
    (apiKey apiSecret : String) (k : ApiKeyRecord) (u : UserRecord)
    (hk : (db.apiKeys.filter (fun r => r.api_key == apiKey)).head? = some k)
    (hsec : hash apiSecret = k.api_secret_hash)
    (hact : k.is_active = true)
    (hexp : (match k.expires_at with
             | some d => JsDate.ltb d now
             | none => false) = false)
    (hu : (db.users.filter (fun r => r.id == k.user_id)).head? = some u)
    (huact : u.is_active = true)
    (hblocked : u.is_blocked = true) :
    validateApiKey hash now db apiKey apiSecret
      = .failure "차단된 사용자입니다" 403 "USER_BLOCKED" := by
  unfold validateApiKey
  rw [hk]
  simp only [hsec, hact, hexp, hu, huact, hblocked]
  simp

/-- C1 witness: a blocked but still-active owner with no subscription
at all is rejected `USER_BLOCKED`, never `SUBSCRIPTION_INACTIVE`. -/
theorem C1_blocked_account_rejected_witness :
    validateApiKey hash0 dNow dbBlocked "sk_alpha" "sec1"
      = .failure "차단된 사용자입니다" 403 "USER_BLOCKED" :=
  C1_blocked_account_rejected hash0 dNow dbBlocked "sk_alpha" "sec1"
    key1 userBlocked rfl rfl rfl rfl rfl rfl rfl

/-- C2.  For a request that reaches the quota gate (credential
authenticates, owner active and unblocked, an active-status
subscription resolves tier limit `L`), the gate admits exactly when the
recorded current usage is strictly below `L`, and rejects with
`API_LIMIT_EXCEEDED` (429) exactly when usage `≥ L`
(validateApiKeyService.js lines 160-179). -/
theorem C2_quota_boundary
    (hash : String → String) (now : JsDate) (db : Db)
    (apiKey apiSecret : String) (k : ApiKeyRecord) (u : UserRecord)
    (sub : SubscriptionRecord) (L : Nat)
    (hk : (db.apiKeys.filter (fun r => r.api_key == apiKey)).head? = some k)
    (hsec : hash apiSecret = k.api_secret_hash)
    (hact : k.is_active = true)
    (hexp : (match k.expires_at with
             | some d => JsDate.ltb d now
             | none => false) = false)
    (hu : (db.users.filter (fun r => r.id == k.user_id)).head? = some u)
    (huact : u.is_active = true)
    (hunblocked : u.is_blocked = false)
    (hsub : (subscriptionQuery db k.user_id).head? = some (sub, L)) :
    (currentUsage db now k.id < L →
      validateApiKey hash now db apiKey apiSecret
        = .success k.id k.user_id k.created_at k.expires_at k.is_active) ∧
    (L ≤ currentUsage db now k.id →
      validateApiKey hash now db apiKey apiSecret
        = .failure "API 호출 제한을 초과했습니다" 429 "API_LIMIT_EXCEEDED") := by
  unfold validateApiKey
  rw [hk]
  simp only [hsec, hact, hexp, hu, huact, hunblocked, hsub]
  constructor
  · intro hlt
    simp [Nat.not_le_of_lt hlt]
  · intro hle
    simp [hle]

/-- C2 witness: with tier limit 3 the third call (usage 2) is admitted
and a call at usage 3 is rejected 429. -/
theorem C2_quota_boundary_witness :
    (currentUsage dbUsage2 dNow 1 < 3 ∧
      validateApiKey hash0 dNow dbUsage2 "sk_alpha" "sec1"
        = .success 1 10 key1.created_at none true) ∧
    (3 ≤ currentUsage dbUsage3 dNow 1 ∧
      validateApiKey hash0 dNow dbUsage3 "sk_alpha" "sec1"
        = .failure "API 호출 제한을 초과했습니다" 429 "API_LIMIT_EXCEEDED") :=
  ⟨⟨by decide,
    (C2_quota_boundary hash0 dNow dbUsage2 "sk_alpha" "sec1" key1 userOk
      sub1 3 rfl rfl rfl rfl rfl rfl rfl rfl).1 (by decide)⟩,
   ⟨by decide,
    (C2_quota_boundary hash0 dNow dbUsage3 "sk_alpha" "sec1" key1 userOk
      sub1 3 rfl rfl rfl rfl rfl rfl rfl rfl).2 (by decide)⟩⟩

/-- C4 (counterexample).  The claim asserts the subscription gate
re-derives effective activity from `endDate` and rejects a stale
`status='active'` subscription whose `endDate` has passed with
`SUBSCRIPTION_INACTIVE`.  The gate's query
(validateApiKeyService.js lines 140-146) filters only on the persisted
`status` column and never reads `end_date`: with a subscription whose
status is `'active'` but whose end date (June 2026) lies before the
clock (October 2026), `validate` admits the request. -/
theorem C4_counterexample :
    subStale.status = "active" ∧
    subStale.end_date = some ⟨2026, 5, 30⟩ ∧
    JsDate.ltb ⟨2026, 5, 30⟩ dNow = true ∧
    validateApiKey hash0 dNow dbStaleSub "sk_alpha" "sec1"
      = .success 1 10 key1.created_at none true ∧
    (validateApiKey hash0 dNow dbStaleSub "sk_alpha" "sec1").errorCode
      ≠ some "SUBSCRIPTION_INACTIVE" := by
  refine ⟨rfl, rfl, rfl, rfl, ?_⟩
  decide

/-- C4 (amended).  The subscription gate trusts the persisted status
field alone: if the owner's subscription query (status = 'active',
joined with its tier) yields a row with limit `L`, then even when that
subscription's `endDate` is set and already past, the pipeline does not
return `SUBSCRIPTION_INACTIVE` but proceeds to the quota gate, whose
decision alone determines the outcome. -/
theorem C4_stale_active_subscription_passes
    (hash : String → String) (now : JsDate) (db : Db)
    (apiKey apiSecret : String) (k : ApiKeyRecord) (u : UserRecord)
    (sub : SubscriptionRecord) (L : Nat) (d : JsDate)
    (hk : (db.apiKeys.filter (fun r => r.api_key == apiKey)).head? = some k)
    (hsec : hash apiSecret = k.api_secret_hash)
    (hact : k.is_active = true)
    (hexp : (match k.expires_at with
             | some dd => JsDate.ltb dd now
             | none => false) = false)
    (hu : (db.users.filter (fun r => r.id == k.user_id)).head? = some u)
    (huact : u.is_active = true)
    (hunblocked : u.is_blocked = false)
    (hsub : (subscriptionQuery db k.user_id).head? = some (sub, L))
    (hend : sub.end_date = some d)
    (hpast : JsDate.ltb d now = true) :
    validateApiKey hash now db apiKey apiSecret
      = (if L ≤ currentUsage db now k.id
         then .failure "API 호출 제한을 초과했습니다" 429 "API_LIMIT_EXCEEDED"
         else .success k.id k.user_id k.created_at k.expires_at k.is_active) := by
  unfold validateApiKey
  rw [hk]
  simp only [hsec, hact, hexp, hu, huact, hunblocked, hsub]
  simp

/-- C4 witness: the stale-active fixture is decided by the quota gate
(usage 0 < 3, so admitted), not by the subscription gate. -/
theorem C4_stale_active_subscription_passes_witness :
    JsDate.ltb ⟨2026, 5, 30⟩ dNow = true ∧
    validateApiKey hash0 dNow dbStaleSub "sk_alpha" "sec1"
      = (if 3 ≤ currentUsage dbStaleSub dNow 1
         then .failure "API 호출 제한을 초과했습니다" 429 "API_LIMIT_EXCEEDED"
         else .success 1 10 key1.created_at none true) :=
  ⟨by decide,
   C4_stale_active_subscription_passes hash0 dNow dbStaleSub "sk_alpha" "sec1"
     key1 userOk subStale 3 ⟨2026, 5, 30⟩ rfl rfl rfl rfl rfl rfl rfl rfl rfl rfl⟩

/-- C3 (code evaluated at the failing input).  The internal-error path
of the controller logs `JSON.stringify(req.body)` — the FULL raw body
(webhookController.js line 182) — while the success and rejection paths
deliberately truncate to the first 10 characters of the key (lines 120
and 145, `보안: 일부만 표시`).  A validate request whose body carries the
plaintext secret and whose service call faults therefore writes an
audit row whose `request_body` contains the plaintext `api_secret`
verbatim: here the single row written has an `api_secret` field equal
to the plaintext secret, contradicting the secret-opacity invariant. -/
theorem C3_error_path_logs_plaintext_secret :
    ((controllerValidate hash0 dNow dbHealthy ⟨some "Connection lost", none⟩
        ⟨some "sk_alpha", some "plain-secret-value"⟩ "1.2.3.4" 7 99).2.map
      (fun l => logRowHasValue l "plain-secret-value")) = [true] ∧
    ((controllerValidate hash0 dNow dbHealthy ⟨some "Connection lost", none⟩
        ⟨some "sk_alpha", some "plain-secret-value"⟩ "1.2.3.4" 7 99).2.map
      (fun l => l.request_body))
      = [some [("api_key", "sk_alpha"), ("api_secret", "plain-secret-value")]] := by
  constructor <;> rfl

/-- C5 (counterexample).  The claim asserts a failure of the audit-log
write never changes the decided outcome.  But the rejection- and
success-path log writes are awaited inside the controller's `try`
(webhookController.js lines 112 and 137) and `logValidationAttempt`
rethrows its failure (validateApiKeyService.js line 272), so the catch
block replaces the decided response with 500 `INTERNAL_ERROR`: here the
decided outcome is the 401 `INVALID_API_KEY` rejection, the log write
fails, and the caller receives 500 `INTERNAL_ERROR` instead. -/
theorem C5_counterexample :
    (validateApiKey hash0 dNow dbEmpty "sk_missing" "s").statusCode = some 401 ∧
    (validateApiKey hash0 dNow dbEmpty "sk_missing" "s").errorCode
      = some "INVALID_API_KEY" ∧
    (controllerValidate hash0 dNow dbEmpty ⟨none, some "log write failed"⟩
        ⟨some "sk_missing", some "s"⟩ "1.2.3.4" 5 7).1
      = .errorRes "서버 오류가 발생했습니다" 500 "INTERNAL_ERROR" := by
  exact ⟨rfl, rfl, rfl⟩

/-- C5 (amended).  When the audit-log write fails on a decided path
(the service call itself did not fault), the decided success or
rejection response is NOT delivered: the controller's catch block
responds 500 `INTERNAL_ERROR` instead, and no audit row is persisted
for the request (the catch block's own log attempt fails too and is
swallowed by its `.catch`). -/
theorem C5_log_failure_converts_outcome_to_500
    (hash : String → String) (now : JsDate) (db : Db) (m : String)
    (req : ReqBody) (ip : String) (rt logId : Nat)
    (hkey : jsFalsyStr req.api_key = false)
    (hsec : jsFalsyStr req.api_secret = false)
    (hfmt : strHasPrefix (req.api_key.getD "") "sk_" = true) :
    (controllerValidate hash now db ⟨none, some m⟩ req ip rt logId).1
      = .errorRes "서버 오류가 발생했습니다" 500 "INTERNAL_ERROR" ∧
    (controllerValidate hash now db ⟨none, some m⟩ req ip rt logId).2 = [] := by
  unfold controllerValidate
  simp only [hkey, hsec, hfmt]
  simp only [Bool.false_or, Bool.or_self, Bool.false_eq_true, if_false,
    Bool.true_eq_false, ite_false]
  cases validateApiKey hash now db (req.api_key.getD "") (req.api_secret.getD "") <;>
    simp [controllerCatch]

/-- C5 witness: decided 401 rejection plus failing log write yields the
500 response and writes nothing. -/
theorem C5_log_failure_converts_outcome_to_500_witness :
    (controllerValidate hash0 dNow dbEmpty ⟨none, some "log write failed"⟩
        ⟨some "sk_missing", some "s"⟩ "1.2.3.4" 5 7).1
      = .errorRes "서버 오류가 발생했습니다" 500 "INTERNAL_ERROR" ∧
    (controllerValidate hash0 dNow dbEmpty ⟨none, some "log write failed"⟩
        ⟨some "sk_missing", some "s"⟩ "1.2.3.4" 5 7).2 = [] :=
  C5_log_failure_converts_outcome_to_500 hash0 dNow dbEmpty "log write failed"
    ⟨some "sk_missing", some "s"⟩ "1.2.3.4" 5 7 rfl rfl rfl

/-- C6 (counterexample).  The claim asserts a gate storage fault is
surfaced as `BackendUnavailable` with HTTP 503.  The controller's catch
block (webhookController.js lines 189-194) instead responds
`INTERNAL_ERROR` with HTTP 500: here the service call faults and the
caller receives status 500 with code `INTERNAL_ERROR`, and no response
of this handler ever carries 503. -/
theorem C6_counterexample :
    (controllerValidate hash0 dNow dbHealthy ⟨some "ETIMEDOUT: storage down", none⟩
        ⟨some "sk_alpha", some "sec1"⟩ "1.2.3.4" 5 7).1
      = .errorRes "서버 오류가 발생했습니다" 500 "INTERNAL_ERROR" ∧
    (controllerValidate hash0 dNow dbHealthy ⟨some "ETIMEDOUT: storage down", none⟩
        ⟨some "sk_alpha", some "sec1"⟩ "1.2.3.4" 5 7).1.status ≠ 503 := by
  exact ⟨rfl, by decide⟩

/-- C6 (amended).  Whenever the service call faults during validate,
the controller converts the fault at its boundary into the single
`INTERNAL_ERROR` rejection with HTTP status 500 (not 503, and with no
`BackendUnavailable` code), whose fixed generic message is independent
of the internal exception — the exception type and message are not
leaked to the caller. -/
theorem C6_storage_fault_becomes_500_internal_error
    (hash : String → String) (now : JsDate) (db : Db) (m : String)
    (lf : Option String) (req : ReqBody) (ip : String) (rt logId : Nat)
    (hkey : jsFalsyStr req.api_key = false)
    (hsec : jsFalsyStr req.api_secret = false)
    (hfmt : strHasPrefix (req.api_key.getD "") "sk_" = true) :
    (controllerValidate hash now db ⟨some m, lf⟩ req ip rt logId).1
      = .errorRes "서버 오류가 발생했습니다" 500 "INTERNAL_ERROR" := by
  unfold controllerValidate
  simp only [hkey, hsec, hfmt]
  simp [controllerCatch]

/-- C6 witness: a concrete storage fault is delivered as the generic
500 `INTERNAL_ERROR` response. -/
theorem C6_storage_fault_becomes_500_internal_error_witness :
    (controllerValidate hash0 dNow dbHealthy ⟨some "ETIMEDOUT: storage down", none⟩
        ⟨some "sk_alpha", some "sec1"⟩ "1.2.3.4" 5 7).1
      = .errorRes "서버 오류가 발생했습니다" 500 "INTERNAL_ERROR" :=
  C6_storage_fault_becomes_500_internal_error hash0 dNow dbHealthy
    "ETIMEDOUT: storage down" none ⟨some "sk_alpha", some "sec1"⟩
    "1.2.3.4" 5 7 rfl rfl rfl

/-- C7 (counterexample).  The claim asserts the admitted result carries
the resolved tier quota limit and the current usage count.  The
service's success object (validateApiKeyService.js lines 187-194) and
the controller's success payload (webhookController.js lines 150-161)
carry only identity and key metadata.  In a fixture whose resolved
limit is 3 and whose current usage is 2, the admitted response's field
names are exactly user_id / api_key_id / creation_date /
expiration_date / is_active and no field value equals 3 or 2: neither
the quota limit nor the usage is carried. -/
theorem C7_counterexample :
    currentUsage dbUsage2 dNow 1 = 2 ∧
    (subscriptionQuery dbUsage2 10).head? = some (sub1, 3) ∧
    (controllerValidate hash0 dNow dbUsage2 noFaults
        ⟨some "sk_alpha", some "sec1"⟩ "1.2.3.4" 7 99).1
      = .okRes (admittedData 1 10 key1.created_at none true) "API Key 검증 성공" 200 ∧
    ((admittedData 1 10 key1.created_at none true).map Prod.fst
      = ["user_id", "api_key_id", "creation_date", "expiration_date", "is_active"]) ∧
    (JsonVal.vNat 3) ∉ (admittedData 1 10 key1.created_at none true).map Prod.snd ∧
    (JsonVal.vNat 2) ∉ (admittedData 1 10 key1.created_at none true).map Prod.snd := by
  refine ⟨rfl, rfl, rfl, rfl, ?_, ?_⟩ <;> decide

/-- C7 (amended).  For every admitted request (no faults injected), the
response is the 200 payload carrying exactly the owner id, credential
id, creation date, expiration date and active flag of the credential
record — the resolved quota limit and current usage are not part of
the admitted result. -/
theorem C7_admitted_payload_is_identity_only
    (hash : String → String) (now : JsDate) (db : Db)
    (req : ReqBody) (ip : String) (rt logId : Nat)
    (kid uid : Nat) (cat exp : Option JsDate) (act : Bool)
    (hkey : jsFalsyStr req.api_key = false)
    (hsec : jsFalsyStr req.api_secret = false)
    (hfmt : strHasPrefix (req.api_key.getD "") "sk_" = true)
    (hres : validateApiKey hash now db (req.api_key.getD "") (req.api_secret.getD "")
      = .success kid uid cat exp act) :
    (controllerValidate hash now db noFaults req ip rt logId).1
      = .okRes (admittedData kid uid cat exp act) "API Key 검증 성공" 200 ∧
    ((admittedData kid uid cat exp act).map Prod.fst
      = ["user_id", "api_key_id", "creation_date", "expiration_date", "is_active"]) := by
  constructor
  · unfold controllerValidate
    simp only [hkey, hsec, hfmt]
    simp [noFaults, hres]
  · rfl

/-- C7 witness: a concrete admitted run produces exactly the
identity-and-metadata payload. -/
theorem C7_admitted_payload_is_identity_only_witness :
    (controllerValidate hash0 dNow dbUsage2 noFaults
        ⟨some "sk_alpha", some "sec1"⟩ "1.2.3.4" 7 99).1
      = .okRes (admittedData 1 10 key1.created_at none true) "API Key 검증 성공" 200 ∧
    ((admittedData 1 10 key1.created_at none true).map Prod.fst
      = ["user_id", "api_key_id", "creation_date", "expiration_date", "is_active"]) :=
  C7_admitted_payload_is_identity_only hash0 dNow dbUsage2
    ⟨some "sk_alpha", some "sec1"⟩ "1.2.3.4" 7 99 1 10 key1.created_at none true
    rfl rfl rfl rfl

/-- A date from an earlier calendar month is strictly before the first
instant of the current month, so the usage query's
`created_at >= @firstDay` test rejects it. -/
theorem leb_firstDay_of_earlier_month (now d : JsDate)
    (h : d.year < now.year ∨ (d.year = now.year ∧ d.month < now.month)) :
    JsDate.leb (firstDayOfMonth now) d = false := by
  unfold JsDate.leb firstDayOfMonth
  rcases h with h | ⟨h1, h2⟩ <;> split_ifs <;> simp_all <;> omega

/-- C8.  The quota gate's current-usage count consults only audit rows
whose `created_at` is on or after the first day of the calendar month
of the wall clock read at call time
(validateApiKeyService.js lines 160-170): (1) adding a row recorded in
any earlier calendar month leaves the count unchanged — usage from
month M never affects the computation once the clock has entered a
later month, with no explicit reset; and (2) every row the count does
include lies on or after the first day of the current month. -/
theorem C8_usage_resets_at_month_boundary :
    (∀ (db : Db) (now : JsDate) (kid : Nat) (e : ApiLogRecord),
        (e.created_at.year < now.year ∨
          (e.created_at.year = now.year ∧ e.created_at.month < now.month)) →
        currentUsage { db with apiLogs := e :: db.apiLogs } now kid
          = currentUsage db now kid) ∧
    (∀ (db : Db) (now : JsDate) (kid : Nat) (l : ApiLogRecord),
        l ∈ db.apiLogs.filter
          (fun r => r.api_key_id == some kid
            && JsDate.leb (firstDayOfMonth now) r.created_at) →
        JsDate.leb (firstDayOfMonth now) l.created_at = true) := by
  constructor
  · intro db now kid e h
    unfold currentUsage
    simp [List.filter_cons, leb_firstDay_of_earlier_month now e.created_at h]
  · intro db now kid l hl
    rw [List.mem_filter] at hl
    exact (Bool.and_eq_true _ _ |>.mp hl.2).2

/-- C8 witness: a September 2026 row for credential 1 does not change
the usage count computed under the October 2026 clock. -/
theorem C8_usage_resets_at_month_boundary_witness :
    currentUsage { dbUsage2 with
        apiLogs := (⟨300, some 1, some 10, "/api/validate-key", "POST", 200,
          5, "9.9.9.9", none, none, ⟨2026, 8, 20⟩⟩ : ApiLogRecord) :: dbUsage2.apiLogs }
      dNow 1 = currentUsage dbUsage2 dNow 1 :=
  C8_usage_resets_at_month_boundary.1 dbUsage2 dNow 1
    ⟨300, some 1, some 10, "/api/validate-key", "POST", 200, 5, "9.9.9.9",
      none, none, ⟨2026, 8, 20⟩⟩ (Or.inr ⟨rfl, by decide⟩)

/-- No `[ApiKeys]` mutation reachable through the public routes can
make a revoked credential active again: `revokeApiKey` only clears
`is_active`, `updateApiKeyLastUsed` only touches `last_used`, and
`generateNewApiKey` inserts only fresh ids. -/
theorem applyKeyOp_preserves_revoked (keys : List ApiKeyRecord)
    (op : KeyOp) (kid : Nat)
    (hinv : ∀ r ∈ keys, r.id = kid → r.is_active = false)
    (hop : op.createsId kid = false) :
    ∀ r ∈ applyKeyOp keys op, r.id = kid → r.is_active = false := by
  intro r hr hid
  cases op with
  | createKey kid' uid ak sh t =>
      rw [applyKeyOp, List.mem_append] at hr
      rcases hr with hr | hr
      · exact hinv r hr hid
      · simp only [List.mem_singleton] at hr
        subst hr
        simp only [KeyOp.createsId, beq_eq_false_iff_ne, ne_eq] at hop
        exact absurd hid hop
  | revokeKey uid kid0 =>
      rw [applyKeyOp] at hr
      split at hr
      · exact hinv r hr hid
      · rcases List.mem_map.mp hr with ⟨s, hs, hmap⟩
        by_cases hcase : (s.id == kid0) = true
        · rw [if_pos hcase] at hmap
          rw [← hmap]
        · rw [if_neg hcase] at hmap
          exact hmap ▸ hinv s hs (hmap ▸ hid)
  | touchLastUsed kid0 t =>
      rw [applyKeyOp] at hr
      rcases List.mem_map.mp hr with ⟨s, hs, hmap⟩
      by_cases hcase : (s.id == kid0) = true
      · rw [if_pos hcase] at hmap
        have hsid : s.id = kid := by rw [← hmap] at hid; exact hid
        have := hinv s hs hsid
        rw [← hmap]
        exact this
      · rw [if_neg hcase] at hmap
        exact hmap ▸ hinv s hs (hmap ▸ hid)

/-- C9.  (1) A revoked credential (`is_active = 0`) presented with its
correct secret is rejected `API_KEY_INACTIVE` (403) by every subsequent
validate call (validateApiKeyService.js lines 82-90); and (2) the
revocation is irreversible through the public contract: after any
sequence of the `[ApiKeys]`-mutating operations reachable from the
routes (create with a fresh id, revoke, last-used touch), every record
carrying the revoked credential's id still has `is_active = false` —
no operation ever sets `is_active` back to true. -/
theorem C9_revoked_key_stays_rejected :
    (∀ (hash : String → String) (now : JsDate) (db : Db)
        (apiKey apiSecret : String) (k : ApiKeyRecord),
        (db.apiKeys.filter (fun r => r.api_key == apiKey)).head? = some k →
        hash apiSecret = k.api_secret_hash →
        k.is_active = false →
        validateApiKey hash now db apiKey apiSecret
          = .failure "비활성화된 API Key입니다" 403 "API_KEY_INACTIVE") ∧
    (∀ (ops : List KeyOp) (keys : List ApiKeyRecord) (kid : Nat),
        (∀ r ∈ keys, r.id = kid → r.is_active = false) →
        (∀ op ∈ ops, op.createsId kid = false) →
        ∀ r ∈ applyKeyOps keys ops, r.id = kid → r.is_active = false) := by
  constructor
  · intro hash now db apiKey apiSecret k hk hsec hinact
    unfold validateApiKey
    rw [hk]
    simp [hsec, hinact]
  · intro ops
    induction ops with
    | nil =>
        intro keys kid hinv _
        simpa [applyKeyOps] using hinv
    | cons op rest ih =>
        intro keys kid hinv hops
        have h1 := applyKeyOp_preserves_revoked keys op kid hinv
          (hops op (by simp))
        have h2 := ih (applyKeyOp keys op) kid h1
          (fun o ho => hops o (by simp [ho]))
        simpa [applyKeyOps] using h2

/-- C9 witness: the revoked fixture key with its correct secret is
rejected `API_KEY_INACTIVE`, and after a create / touch / revoke
sequence every record with its id remains inactive. -/
theorem C9_revoked_key_stays_rejected_witness :
    validateApiKey hash0 dNow dbRevoked "sk_alpha" "sec1"
      = .failure "비활성화된 API Key입니다" 403 "API_KEY_INACTIVE" ∧
    (∀ r ∈ applyKeyOps [key1Revoked]
        [KeyOp.createKey 2 10 "sk_beta" "h2" dNow,
         KeyOp.touchLastUsed 1 dNow,
         KeyOp.revokeKey 10 2],
      r.id = 1 → r.is_active = false) :=
  ⟨C9_revoked_key_stays_rejected.1 hash0 dNow dbRevoked "sk_alpha" "sec1"
      key1Revoked rfl rfl rfl,
   C9_revoked_key_stays_rejected.2
      [KeyOp.createKey 2 10 "sk_beta" "h2" dNow,
       KeyOp.touchLastUsed 1 dNow,
       KeyOp.revokeKey 10 2]
      [key1Revoked] 1 (by decide) (by decide)⟩

/-- Reading the credential id back out of an admitted payload. -/
theorem admittedKeyId_okRes (kid uid : Nat) (cat exp : Option JsDate)
    (act : Bool) (msg : String) (sc : Nat) :
    (HttpResponse.okRes (admittedData kid uid cat exp act) msg sc).admittedKeyId
      = some kid := rfl

/-- A rejection response admits no credential. -/
theorem admittedKeyId_errorRes (msg : String) (sc : Nat) (ec : String) :
    (HttpResponse.errorRes msg sc ec).admittedKeyId = none := rfl

/-- Appending freshly written rows adds exactly their matching count to
the usage query. -/
theorem currentUsage_append (db : Db) (L : List ApiLogRecord)
    (now : JsDate) (kid : Nat) :
    currentUsage { db with apiLogs := db.apiLogs ++ L } now kid
      = currentUsage db now kid
        + (L.filter (fun l => l.api_key_id == some kid
            && JsDate.leb (firstDayOfMonth now) l.created_at)).length := by
  unfold currentUsage
  simp [List.filter_append]

/-- One step of `admittedCount`. -/
theorem admittedCount_cons (kid : Nat) (now : JsDate) (r : Request)
    (resp : HttpResponse) (rs : List Request) (resps : List HttpResponse) :
    admittedCount kid now (r :: rs) (resp :: resps)
      = (if (resp.admittedKeyId == some kid
            && JsDate.leb (firstDayOfMonth now) r.time) = true then 1 else 0)
        + admittedCount kid now rs resps := by
  unfold admittedCount
  rw [List.zip_cons_cons, List.filter_cons]
  split <;> simp [Nat.add_comm]

/-- The rows one request writes contribute to the usage query for
credential `kid` exactly 1 when the response admitted `kid` and the
request arrived within the counting month, and 0 otherwise: the
rejection, fault and catch paths all log `api_key_id: null`
(webhookController.js lines 113, 175), and only the success path logs
the credential's id (line 138). -/
theorem controller_log_count (hash : String → String) (t : JsDate)
    (db : Db) (f : Faults) (req : ReqBody) (ip : String) (rt logId : Nat)
    (now : JsDate) (kid : Nat) :
    ((controllerValidate hash t db f req ip rt logId).2.filter
        (fun l => l.api_key_id == some kid
          && JsDate.leb (firstDayOfMonth now) l.created_at)).length
      = (if ((controllerValidate hash t db f req ip rt logId).1.admittedKeyId
            == some kid && JsDate.leb (firstDayOfMonth now) t) = true
         then 1 else 0) := by
  unfold controllerValidate controllerCatch
  by_cases h1 : (jsFalsyStr req.api_key || jsFalsyStr req.api_secret) = true <;>
  by_cases h2 : (strHasPrefix (req.api_key.getD "") "sk_") = false <;>
  rcases hsf : f.serviceFault with _ | m <;>
  rcases hlf : f.logFault with _ | lm <;>
  rcases hv : validateApiKey hash t db (req.api_key.getD "") (req.api_secret.getD "")
    with ⟨er, sc2, ec2⟩ | ⟨ak, au, ac, ae, aa⟩ <;>
  simp [h1, h2, hsf, hlf, hv, mkLogRecord, admittedKeyId_okRes,
    admittedKeyId_errorRes, List.filter_cons] <;>
  split <;> rfl

/-- C10.  (1) Whenever the validate endpoint responds with a rejection
(any `errorResponse`), every audit row it wrote carries
`api_key_id = null`; and (2) over any run of requests, the usage count
the quota gate would read for a credential equals its count in the
initial state plus exactly the number of admitted (200) responses for
that credential within the counting month — rejected attempts never
consume quota. -/
theorem C10_rejections_never_consume_quota :
    (∀ (hash : String → String) (t : JsDate) (db : Db) (f : Faults)
        (req : ReqBody) (ip : String) (rt logId : Nat)
        (msg : String) (sc : Nat) (ec : String) (e : ApiLogRecord),
        (controllerValidate hash t db f req ip rt logId).1 = .errorRes msg sc ec →
        e ∈ (controllerValidate hash t db f req ip rt logId).2 →
        e.api_key_id = none) ∧
    (∀ (hash : String → String) (db : Db) (rs : List Request)
        (now : JsDate) (kid : Nat),
        currentUsage (runRequests hash db rs).1 now kid
          = currentUsage db now kid
            + admittedCount kid now rs (runRequests hash db rs).2) := by
  constructor
  · intro hash t db f req ip rt logId msg sc ec e hresp hmem
    unfold controllerValidate controllerCatch at hresp hmem
    by_cases h1 : (jsFalsyStr req.api_key || jsFalsyStr req.api_secret) = true <;>
    by_cases h2 : (strHasPrefix (req.api_key.getD "") "sk_") = false <;>
    rcases hsf : f.serviceFault with _ | m <;>
    rcases hlf : f.logFault with _ | lm <;>
    rcases hv : validateApiKey hash t db (req.api_key.getD "") (req.api_secret.getD "")
      with ⟨er, sc2, ec2⟩ | ⟨ak, au, ac, ae, aa⟩ <;>
    simp [h1, h2, hsf, hlf, hv] at hresp hmem <;>
    simp_all [mkLogRecord]
  · intro hash db0 rs
    induction rs generalizing db0 with
    | nil => intro now kid; simp [runRequests, admittedCount]
    | cons r rest ih =>
        intro now kid
        simp only [runRequests, stepRequest]
        rw [ih, currentUsage_append, admittedCount_cons, controller_log_count]
        omega

/-- C10 witness: in a concrete two-request run (one admitted call, one
rejected key) the final usage for credential 1 is the initial usage
plus the single admitted call, and the rejection's audit row carries a
null credential id. -/
theorem C10_rejections_never_consume_quota_witness :
    ((controllerValidate hash0 dNow dbEmpty noFaults
        ⟨some "sk_missing", some "s"⟩ "1.2.3.4" 5 7).2
      = [mkLogRecord 7 none none 401 5 "1.2.3.4"
          (some (truncatedKeyJson "sk_missing"))
          (some "유효하지 않은 API Key입니다") dNow] ∧
     (mkLogRecord 7 none none 401 5 "1.2.3.4"
        (some (truncatedKeyJson "sk_missing"))
        (some "유효하지 않은 API Key입니다") dNow).api_key_id = none) ∧
    (currentUsage (runRequests hash0 dbHealthy
        [⟨⟨some "sk_alpha", some "sec1"⟩, "1.2.3.4", 5, 301, dNow, noFaults⟩,
         ⟨⟨some "sk_missing", some "s"⟩, "1.2.3.4", 5, 302, dNow, noFaults⟩]).1
        dNow 1
      = currentUsage dbHealthy dNow 1
        + admittedCount 1 dNow
            [⟨⟨some "sk_alpha", some "sec1"⟩, "1.2.3.4", 5, 301, dNow, noFaults⟩,
             ⟨⟨some "sk_missing", some "s"⟩, "1.2.3.4", 5, 302, dNow, noFaults⟩]
            (runRequests hash0 dbHealthy
              [⟨⟨some "sk_alpha", some "sec1"⟩, "1.2.3.4", 5, 301, dNow, noFaults⟩,
               ⟨⟨some "sk_missing", some "s"⟩, "1.2.3.4", 5, 302, dNow, noFaults⟩]).2) := by
  constructor
  · exact ⟨rfl,
      C10_rejections_never_consume_quota.1 hash0 dNow dbEmpty noFaults
        ⟨some "sk_missing", some "s"⟩ "1.2.3.4" 5 7
        "유효하지 않은 API Key입니다" 401 "INVALID_API_KEY"
        (mkLogRecord 7 none none 401 5 "1.2.3.4"
          (some (truncatedKeyJson "sk_missing"))
          (some "유효하지 않은 API Key입니다") dNow)
        rfl (by decide)⟩
  · exact C10_rejections_never_consume_quota.2 hash0 dbHealthy
      [⟨⟨some "sk_alpha", some "sec1"⟩, "1.2.3.4", 5, 301, dNow, noFaults⟩,
       ⟨⟨some "sk_missing", some "s"⟩, "1.2.3.4", 5, 302, dNow, noFaults⟩] dNow 1

end Booster
